import Mathlib

/-!
Verification development for the adaptive recommendation core of the
git-fit repository (src/app/enhanced_ai_engine.py and
src/app/enhanced_nutrition_ai.py).

Conventions of the shallow embedding:
- Python floats are modelled as exact rationals (ℚ); the float operations in
  the source (multiplication by 0.8, 0.9, 0.95, 1.025, 1.1, EMA updates,
  clipping) are modelled by the corresponding exact rational operations.
- Python `int(x)` on a number is truncation toward zero, modelled by
  `pyTrunc` on ℚ.
- Python dict `.get(key, default)` on optional fields is modelled by
  `Option.getD`.
- A Python `TypeError` raised by comparing a non-numeric suggested value
  against a number is modelled by returning `Option.none` from the function
  that would raise.
- Mutation of a dataclass instance is modelled by returning an updated copy;
  methods that mutate engine state take and return an explicit state value.
- `datetime.now()` is modelled by an explicit `now` parameter.
-/

namespace GitFit

/-- Exponential moving average as in `_exponential_moving_average`:
`current * (1 - learning_rate) + new_value * learning_rate`. -/
def ema (current new_value learning_rate : ℚ) : ℚ :=
  current * (1 - learning_rate) + new_value * learning_rate

/-- Model of `np.clip(x, lo, hi)` for `lo ≤ hi`. -/
def clip (x lo hi : ℚ) : ℚ :=
  max lo (min x hi)

/-- Python slicing `l[-n:]`: the last `n` elements of a list. -/
def lastN (n : Nat) (l : List α) : List α :=
  l.drop (l.length - n)

/-- Python `int(q)` on a float: truncation toward zero.  For a rational
`q = num / den` with `den > 0` this is `num.tdiv den`. -/
def pyTrunc (q : ℚ) : Int :=
  q.num.tdiv q.den

/-- Best-effort model of Python `str` on a float: only the integral case is
ever inspected by a theorem; non-integral values get a fraction rendering. -/
def pyNumStr (q : ℚ) : String :=
  if q.den = 1 then toString q.num ++ ".0"
  else toString q.num ++ "/" ++ toString q.den

/-- Python `str` of an optional number (`None` renders as "None"). -/
def pyOptNumStr : Option ℚ → String
  | Option.none => "None"
  | some q => pyNumStr q

/-- Substring test: whether `pat` occurs contiguously inside `s`. -/
def strContains (s pat : String) : Bool :=
  s.data.tails.any (fun t => pat.data.isPrefixOf t)

/-- Values a suggestion dict can carry in `suggested_value` slots. -/
inductive PyVal where
  | none : PyVal
  | int (n : Int) : PyVal
  | num (q : ℚ) : PyVal
  | str (s : String) : PyVal
  | list (l : List Int) : PyVal
deriving DecidableEq

/-- Numeric reading of a `PyVal`, mirroring `isinstance(v, (int, float))`. -/
def toQ : PyVal → Option ℚ
  | PyVal.int n => some (n : ℚ)
  | PyVal.num q => some q
  | _ => Option.none

/-- Embedding of the `UserPreferenceProfile` dataclass with its field
defaults (src/app/enhanced_ai_engine.py, lines 18-50). -/
structure UserPreferenceProfile where
  user_id : String
  preferred_intensity : ℚ := 7/10
  volume_tolerance : ℚ := 8/10
  rest_time_preference : ℚ := 90
  exercise_variety : ℚ := 6/10
  progression_rate : ℚ := 1/2
  form_focus : ℚ := 8/10
  time_constraints : ℚ := 60
  acceptance_rate : ℚ := 1/2
  modification_frequency : ℚ := 3/10
  skip_rate : ℚ := 1/10
  common_rejection_reasons : List String := []
  workout_confidence : ℚ := 1/2
  exercise_confidence : ℚ := 1/2
  intensity_confidence : ℚ := 1/2
  total_interactions : Nat := 0
  last_updated : ℚ := 0
  learning_rate : ℚ := 1/10
deriving DecidableEq

/-- Embedding of the `WorkoutContext` dataclass (lines 52-63).
`previous_performance` and `wearable_data` are never read by the engine and
are omitted. -/
structure WorkoutContext where
  time_of_day : String := ""
  day_of_week : Int := 0
  user_energy : Option ℚ := Option.none
  user_motivation : Option ℚ := Option.none
  available_time : Option ℚ := Option.none
  equipment_availability : Option (List (String × Bool)) := Option.none
  gym_crowding : Option String := Option.none
deriving DecidableEq

/-- The factor map built by `_analyze_context`, with its initial values
(lines 248-255). -/
structure ContextAnalysis where
  energy_alignment : ℚ := 1
  time_pressure : ℚ := 0
  equipment_constraints : ℚ := 0
  motivation_factor : ℚ := 1
  crowding_impact : ℚ := 0
  performance_trend : String := "stable"
deriving DecidableEq

/-- Embedding of `_analyze_context` (lines 246-287).  Each source `if` block
assigns exactly one key of the factor dict and reads none of the others, so
the dict is built fieldwise; an untaken branch leaves the initial value.
`context.equipment_availability` is truthy only when the dict is present and
non-empty. -/
def analyze_context (context : WorkoutContext) (profile : UserPreferenceProfile) :
    ContextAnalysis :=
  { energy_alignment :=
      match context.user_energy with
      | some e => max 0 (1 - |e - 7| / 7)
      | Option.none => 1
  , time_pressure :=
      match context.available_time with
      | some t =>
          if 0 < profile.time_constraints then
            (if t / profile.time_constraints < 4/5 then 4/5 - t / profile.time_constraints
             else 0)
          else 0
      | Option.none => 0
  , equipment_constraints :=
      match context.equipment_availability with
      | some equip =>
          if equip ≠ [] then
            (if 0 < equip.length then
              ((equip.countP (fun (p : String × Bool) => !p.2)) : ℚ) / (equip.length : ℚ)
             else 0)
          else 0
      | Option.none => 0
  , motivation_factor :=
      match context.user_motivation with
      | some m => m / 10
      | Option.none => 1
  , crowding_impact :=
      match context.gym_crowding with
      | some s => if s = "low" then 0 else if s = "medium" then 3/10
                  else if s = "high" then 7/10 else 0
      | Option.none => 0
  , performance_trend := "stable" }

/-- The suggestion dicts produced by `_generate_fallback_recommendation` and
`_parse_ai_response` and threaded through `_personalize_recommendation` and
`_apply_safety_constraints`.  Text fields are modelled as strings (every
suggestion built by the source has string text fields); `confidence_score`
is optional because the parse-validated dict need not contain it. -/
structure Suggestion where
  type : String
  suggested_value : PyVal
  reasoning : String
  factors : List String := []
  expected_outcome : String := ""
  risk_assessment : String := "Low"
  confidence_score : Option ℚ := Option.none
deriving DecidableEq

/-- The `exercise_data` dict, restricted to the keys the engine reads.
`Option.none` models an absent key, so `.get(key, default)` becomes
`Option.getD`. -/
structure ExerciseData where
  exercise_name : Option String := Option.none
  planned_sets : Option Int := Option.none
  planned_reps : Option PyVal := Option.none
  planned_weight : Option ℚ := Option.none
  planned_value : Option PyVal := Option.none
  current_set : Option Int := Option.none
deriving DecidableEq

/-- Truthiness test of `context.available_time and
context.available_time < profile.time_constraints * 0.8`
(line 491): `0.0` is falsy. -/
def fallback_time_branch (context : WorkoutContext) (profile : UserPreferenceProfile) :
    Bool :=
  match context.available_time with
  | some t => decide (t ≠ 0) && decide (t < profile.time_constraints * (4/5))
  | Option.none => false

/-- Embedding of `_generate_fallback_recommendation` (lines 451-513), the
rule-based decision table.  `Option.none` models the `TypeError` Python would
raise on `current_reps * 0.9` for a non-numeric, non-sequence value. -/
def generate_fallback_recommendation (exercise_data : ExerciseData)
    (context : WorkoutContext) (profile : UserPreferenceProfile)
    (event_type : String) : Option Suggestion :=
  if event_type = "struggle_set" then
    let current_reps := exercise_data.planned_reps.getD (PyVal.int 10)
    let suggested_reps : Option PyVal :=
      match current_reps with
      | PyVal.list l => some (PyVal.list (l.map (fun rep : Int => max 1 (pyTrunc ((rep : ℚ) * (9/10))))))
      | PyVal.int n => some (PyVal.int (max 1 (pyTrunc ((n : ℚ) * (9/10)))))
      | PyVal.num q => some (PyVal.int (max 1 (pyTrunc (q * (9/10)))))
      | _ => Option.none
    match suggested_reps with
    | Option.none => Option.none
    | some sr =>
        some { type := "rep_reduction"
             , suggested_value := sr
             , reasoning := "Reduced reps by 10% to accommodate current difficulty level. User energy: "
                 ++ pyOptNumStr context.user_energy ++ "/10"
             , factors := ["user_struggling", "energy_level", "safety_first"]
             , expected_outcome := "Maintain form while completing the set"
             , risk_assessment := "Low"
             , confidence_score := some (4/5) }
  else if event_type = "complete_set" ∧ 7/10 < profile.progression_rate then
    some { type := "weight_increase"
         , suggested_value := PyVal.num (exercise_data.planned_weight.getD 0 * (41/40))
         , reasoning := "Set completed successfully with high progression preference. Small weight increase recommended."
         , factors := ["successful_completion", "progression_preference", "user_profile"]
         , expected_outcome := "Progressive overload for continued strength gains"
         , risk_assessment := "Low"
         , confidence_score := some (7/10) }
  else if fallback_time_branch context profile then
    some { type := "volume_reduction"
         , suggested_value := PyVal.int (exercise_data.planned_sets.getD 3 - 1)
         , reasoning := "Reduced sets due to time constraints. "
             ++ pyOptNumStr context.available_time ++ " min available vs "
             ++ pyNumStr profile.time_constraints ++ " min preferred."
         , factors := ["time_constraint", "user_preferences"]
         , expected_outcome := "Complete workout within available time"
         , risk_assessment := "Low"
         , confidence_score := some (9/10) }
  else
    some { type := "maintain_program"
         , suggested_value := exercise_data.planned_value.getD PyVal.none
         , reasoning := "Maintaining current program parameters based on user profile and context."
         , factors := ["user_profile", "stable_context"]
         , expected_outcome := "Consistent training progression"
         , risk_assessment := "Very Low"
         , confidence_score := some (3/5) }

/-- First rule of `_personalize_recommendation` (lines 525-530): high form
focus scales a numeric increase down by 0.95 and extends the reasoning. -/
def personalize_rule_formfocus (s : Suggestion) (profile : UserPreferenceProfile) :
    Suggestion :=
  if 4/5 < profile.form_focus ∧ (s.type = "weight_increase" ∨ s.type = "rep_increase") then
    let s :=
      match s.suggested_value with
      | PyVal.int n => {s with suggested_value := PyVal.num ((n : ℚ) * (19/20))}
      | PyVal.num q => {s with suggested_value := PyVal.num (q * (19/20))}
      | _ => s
    {s with reasoning := s.reasoning ++ " (Adjusted for high form focus preference)"}
  else s

/-- Second rule (lines 532-536): low volume tolerance overrides volume
increases to `maintain_program`. -/
def personalize_rule_volume (s : Suggestion) (profile : UserPreferenceProfile) :
    Suggestion :=
  if profile.volume_tolerance < 2/5 ∧ (s.type = "volume_increase" ∨ s.type = "set_increase") then
    {s with type := "maintain_program"
          , reasoning := "Maintaining volume due to low volume tolerance preference"}
  else s

/-- Third rule (lines 538-543): low energy or motivation overrides
increase-type actions to `maintain_program`. -/
def personalize_rule_energy (s : Suggestion) (context_analysis : ContextAnalysis) :
    Suggestion :=
  if (context_analysis.energy_alignment < 1/2 ∨ context_analysis.motivation_factor < 1/2)
      ∧ (s.type = "weight_increase" ∨ s.type = "rep_increase" ∨ s.type = "intensity_increase") then
    {s with type := "maintain_program"
          , reasoning := "Conservative approach due to current energy/motivation levels"}
  else s

/-- Fourth rule (lines 545-549): low acceptance rate scales the reported
confidence down and extends the reasoning; the value is untouched. -/
def personalize_rule_acceptance (s : Suggestion) (profile : UserPreferenceProfile) :
    Suggestion :=
  if profile.acceptance_rate < 3/10 then
    {s with confidence_score := some (s.confidence_score.getD (1/2) * (4/5))
          , reasoning := s.reasoning ++ " (Conservative due to preference history)"}
  else s

/-- Embedding of `_personalize_recommendation` (lines 515-551): the four
rules applied in source order to a copy of the suggestion. -/
def personalize_recommendation (base_suggestion : Suggestion)
    (profile : UserPreferenceProfile) (context_analysis : ContextAnalysis) :
    Suggestion :=
  personalize_rule_acceptance
    (personalize_rule_energy
      (personalize_rule_volume
        (personalize_rule_formfocus base_suggestion profile) profile)
      context_analysis)
    profile

/-- Rep-reduction branch of `_apply_safety_constraints` (lines 563-579).
All three constraint branches test the type and read the suggested value of
the incoming `recommendation`, exactly as the source does, and write any
clamped value into the copy carried in `sc`. -/
def safety_step_rep (recommendation : Suggestion) (exercise_data : ExerciseData)
    (sc : Suggestion × List String) : Option (Suggestion × List String) :=
  if recommendation.type = "rep_reduction" then
    let original_reps := exercise_data.planned_reps.getD (PyVal.int 10)
    let suggested_reps := recommendation.suggested_value
    match original_reps, suggested_reps with
    | PyVal.list orig, PyVal.list sugg =>
        let min_reps := orig.map (fun o : Int => max 1 (pyTrunc ((o : ℚ) * (4/5))))
        let safe_reps := (sugg.zip min_reps).map (fun p => max p.1 p.2)
        if safe_reps ≠ sugg then
          some ({sc.1 with suggested_value := PyVal.list safe_reps},
                sc.2 ++ ["min_rep_constraint"])
        else some sc
    | o, sg =>
        match toQ o, toQ sg with
        | some oq, some sq =>
            let min_reps := max 1 (pyTrunc (oq * (4/5)))
            if sq < (min_reps : ℚ) then
              some ({sc.1 with suggested_value := PyVal.int min_reps},
                    sc.2 ++ ["min_rep_constraint"])
            else some sc
        | _, _ => some sc
  else some sc

/-- Weight-increase branch of `_apply_safety_constraints` (lines 581-590).
`Option.none` models the `TypeError` raised by comparing a non-numeric
suggested value against the cap. -/
def safety_step_weight (recommendation : Suggestion) (exercise_data : ExerciseData)
    (sc : Suggestion × List String) : Option (Suggestion × List String) :=
  if recommendation.type = "weight_increase" then
    let original_weight := exercise_data.planned_weight.getD 0
    if 0 < original_weight then
      match toQ recommendation.suggested_value with
      | some sw =>
          let max_increase := original_weight * (1 + 1/10)
          if max_increase < sw then
            some ({sc.1 with suggested_value := PyVal.num max_increase},
                  sc.2 ++ ["max_weight_constraint"])
          else some sc
      | Option.none => Option.none
    else some sc
  else some sc

/-- Rest-time branch of `_apply_safety_constraints` (lines 592-597).
`Option.none` models the `TypeError` raised by comparing a non-numeric
suggested value against the floor. -/
def safety_step_rest (recommendation : Suggestion)
    (sc : Suggestion × List String) : Option (Suggestion × List String) :=
  if recommendation.type = "rest_reduction" then
    match toQ recommendation.suggested_value with
    | some rv =>
        if rv < 30 then
          some ({sc.1 with suggested_value := PyVal.int 30},
                sc.2 ++ ["min_rest_constraint"])
        else some sc
    | Option.none => Option.none
  else some sc

/-- Final block of `_apply_safety_constraints` (lines 599-604): record the
applied constraints in the reasoning and drop the risk tier. -/
def safety_finalize (sc : Suggestion × List String) : Suggestion :=
  if sc.2 ≠ [] then
    {sc.1 with
      reasoning := sc.1.reasoning ++ " (Safety constraints applied: "
          ++ String.intercalate ", " sc.2 ++ ")"
    , risk_assessment := "Very Low"}
  else sc.1

/-- Embedding of `_apply_safety_constraints` (lines 553-604): the three
constraint branches in source order, then the finalize block. -/
def apply_safety_constraints (recommendation : Suggestion)
    (exercise_data : ExerciseData) : Option Suggestion :=
  match safety_step_rep recommendation exercise_data (recommendation, []) with
  | Option.none => Option.none
  | some sc1 =>
      match safety_step_weight recommendation exercise_data sc1 with
      | Option.none => Option.none
      | some sc2 =>
          match safety_step_rest recommendation sc2 with
          | Option.none => Option.none
          | some sc3 => some (safety_finalize sc3)

/-- Embedding of `_calculate_confidence` (lines 606-640). -/
def calculate_confidence (profile : UserPreferenceProfile)
    (context_analysis : ContextAnalysis) (recommendation : Suggestion) : ℚ :=
  let base_confidence := recommendation.confidence_score.getD (1/2)
  let base_confidence :=
    if 20 < profile.total_interactions then
      base_confidence + min (1/5) ((profile.total_interactions : ℚ) / 100)
    else base_confidence
  let acceptance_factor := profile.acceptance_rate
  let base_confidence := base_confidence * (1/2 + acceptance_factor * (1/2))
  let context_clarity :=
    context_analysis.energy_alignment * (3/10)
      + (1 - context_analysis.time_pressure) * (1/5)
      + context_analysis.motivation_factor * (3/10)
      + (1 - context_analysis.crowding_impact) * (1/5)
  let base_confidence := base_confidence * (7/10 + context_clarity * (3/10))
  let base_confidence :=
    if recommendation.type = "maintain_program" ∨ recommendation.type = "rest_increase"
        ∨ recommendation.type = "form_focus" then
      base_confidence * (11/10)
    else base_confidence
  clip base_confidence 0 1

/-- The returned `AIRecommendation` dataclass (lines 65-80). -/
structure AIRecommendation where
  type : String
  original_value : Option PyVal
  suggested_value : PyVal
  confidence : ℚ
  reasoning : String
  factors : List String
  expected_outcome : String
  risk_assessment : String
  alternative_options : List String := []
deriving DecidableEq

/-- Embedding of `generate_personalized_recommendation` (lines 197-244) in
the model-unavailable case (`self.model is None`), where the suggestion
source is `_generate_fallback_recommendation`.  The profile is passed
explicitly (the source fetches it from state via `get_user_profile`). -/
def generate_personalized_recommendation_noModel
    (profile : UserPreferenceProfile) (exercise_data : ExerciseData)
    (context : WorkoutContext) (event_type : String) : Option AIRecommendation :=
  let context_analysis := analyze_context context profile
  match generate_fallback_recommendation exercise_data context profile event_type with
  | Option.none => Option.none
  | some ai_suggestion =>
      let personalized := personalize_recommendation ai_suggestion profile context_analysis
      match apply_safety_constraints personalized exercise_data with
      | Option.none => Option.none
      | some safe =>
          let confidence := calculate_confidence profile context_analysis safe
          some { type := safe.type
               , original_value := exercise_data.planned_value
               , suggested_value := safe.suggested_value
               , confidence := confidence
               , reasoning := safe.reasoning
               , factors := safe.factors
               , expected_outcome := safe.expected_outcome
               , risk_assessment := safe.risk_assessment
               , alternative_options := [] }

/-- The feedback payload read by `update_user_preferences` (lines 145-149),
with the `.get` defaults of the source. -/
structure Feedback where
  action : String := "ignored"
  rating : Option ℚ := Option.none
  response_time : Option ℚ := Option.none
  modification_reason : Option String := Option.none
deriving DecidableEq

/-- One entry of the per-user interaction history (lines 649-653). -/
structure Interaction where
  tweak_id : String := ""
  feedback : Feedback := {}
  timestamp : ℚ := 0
deriving DecidableEq

/-- Action block of `update_user_preferences` (lines 154-169): EMA updates of
the acceptance and modification rates keyed on the feedback action.  A
present-but-empty `modification_reason` is falsy, as in the source. -/
def update_step_action (profile : UserPreferenceProfile) (feedback : Feedback) :
    UserPreferenceProfile :=
  if feedback.action = "accepted" then
    {profile with acceptance_rate := ema profile.acceptance_rate 1 profile.learning_rate}
  else if feedback.action = "rejected" then
    let profile :=
      {profile with acceptance_rate := ema profile.acceptance_rate 0 profile.learning_rate}
    match feedback.modification_reason with
    | some m =>
        if m ≠ "" then
          {profile with
            common_rejection_reasons := lastN 20 (profile.common_rejection_reasons ++ [m])}
        else profile
    | Option.none => profile
  else if feedback.action = "modified" then
    {profile with
      modification_frequency := ema profile.modification_frequency 1 profile.learning_rate}
  else profile

/-- Rating block of `update_user_preferences` (lines 171-177): clipped
confidence adjustment from an explicit rating. -/
def update_step_rating (profile : UserPreferenceProfile) (feedback : Feedback) :
    UserPreferenceProfile :=
  match feedback.rating with
  | some rating =>
      let confidence_adjustment := (rating - 3) / 5
      {profile with
        workout_confidence := clip (profile.workout_confidence + confidence_adjustment * profile.learning_rate) 0 1}
  | Option.none => profile

/-- Response-time block of `update_user_preferences` (lines 179-186):
bounded confidence nudges from response latency. -/
def update_step_response_time (profile : UserPreferenceProfile) (feedback : Feedback) :
    UserPreferenceProfile :=
  match feedback.response_time with
  | some rt =>
      if rt < 5 then
        {profile with workout_confidence := min 1 (profile.workout_confidence + 1/100)}
      else if 30 < rt then
        {profile with workout_confidence := max 0 (profile.workout_confidence - 1/100)}
      else profile
  | Option.none => profile

/-- Embedding of `update_user_preferences` (lines 141-191) as a profile
transformer: interaction count increment, then the three blocks in source
order, then the timestamp.  `now` stands for `datetime.now().timestamp()`
and the persistence call `_save_user_profiles` is I/O outside the model. -/
def update_user_preferences (profile : UserPreferenceProfile)
    (feedback : Feedback) (now : ℚ) : UserPreferenceProfile :=
  let profile := {profile with total_interactions := profile.total_interactions + 1}
  let profile := update_step_action profile feedback
  let profile := update_step_rating profile feedback
  let profile := update_step_response_time profile feedback
  {profile with last_updated := now}

/-- Learning-rate block of `_analyze_interaction_patterns` (lines 668-681):
bounded learning-rate adaptation from the recent acceptance trend. -/
def patterns_step_rate (profile : UserPreferenceProfile)
    (interactions : List Interaction) : UserPreferenceProfile :=
  let recent_interactions := lastN 20 interactions
  let recent_acceptances :=
    recent_interactions.countP (fun i => i.feedback.action == "accepted")
  let recent_acceptance_rate := (recent_acceptances : ℚ) / (recent_interactions.length : ℚ)
  if 1/5 < |recent_acceptance_rate - profile.acceptance_rate| then
    {profile with learning_rate := min (3/10) (profile.learning_rate * (6/5))}
  else
    {profile with learning_rate := max (1/20) (profile.learning_rate * (19/20))}

/-- Rejection-reason block of `_analyze_interaction_patterns`
(lines 683-695). -/
def patterns_step_rejections (profile : UserPreferenceProfile)
    (interactions : List Interaction) : UserPreferenceProfile :=
  let recent_interactions := lastN 20 interactions
  let rejections :=
    recent_interactions.filter (fun i => i.feedback.action == "rejected")
  if 3 < rejections.length then
    let reasons := rejections.filterMap (fun r =>
      match r.feedback.modification_reason with
      | some m => if m ≠ "" then some m else Option.none
      | Option.none => Option.none)
    {profile with
      common_rejection_reasons := lastN 10 (profile.common_rejection_reasons ++ reasons)}
  else profile

/-- Embedding of `_analyze_interaction_patterns` (lines 662-695) as a profile
transformer over the interaction list of the user: the two blocks in source
order.  The rate division is junk for an empty list (Python would raise
`ZeroDivisionError`); the call site guarantees at least 10 interactions. -/
def analyze_interaction_patterns (profile : UserPreferenceProfile)
    (interactions : List Interaction) : UserPreferenceProfile :=
  patterns_step_rejections (patterns_step_rate profile interactions) interactions

/-- The shared mutable state of the engine: the user-profiles dict and the
per-user interaction-history defaultdict, both as insertion-ordered
association lists. -/
structure EngineState where
  user_profiles : List (String × UserPreferenceProfile) := []
  interaction_history : List (String × List Interaction) := []
deriving DecidableEq

/-- Embedding of `get_user_profile` (lines 132-139): creates and stores a
default profile when the user is unknown. -/
def get_user_profile (st : EngineState) (user_id : String) (now : ℚ) :
    UserPreferenceProfile × EngineState :=
  match st.user_profiles.lookup user_id with
  | some p => (p, st)
  | Option.none =>
      let p : UserPreferenceProfile := {user_id := user_id, last_updated := now}
      (p, {st with user_profiles := st.user_profiles ++ [(user_id, p)]})

/-- Access `self.interaction_history[user_id]` on the defaultdict
(line 701): a missing key is inserted with an empty history. -/
def history_get (st : EngineState) (user_id : String) :
    List Interaction × EngineState :=
  match st.interaction_history.lookup user_id with
  | some l => (l, st)
  | Option.none =>
      ([], {st with interaction_history := st.interaction_history ++ [(user_id, [])]})

/-- Embedding of `_calculate_recent_acceptance_rate` (lines 722-729). -/
def calculate_recent_acceptance_rate (interactions : List Interaction) : ℚ :=
  if interactions = [] then 1/2
  else
    let recent := lastN 10 interactions
    if recent = [] then 1/2
    else ((recent.countP (fun i => i.feedback.action == "accepted") : ℚ)) / (recent.length : ℚ)

/-- Embedding of `_calculate_improvement_trend` (lines 731-749); `np.mean`
over the ratings (default 3) is the exact rational mean. -/
def calculate_improvement_trend (interactions : List Interaction) : String :=
  if interactions.length < 10 then "insufficient_data"
  else
    let mid := interactions.length / 2
    let first_half := interactions.take mid
    let second_half := interactions.drop mid
    let first_avg := ((first_half.map (fun i => i.feedback.rating.getD 3)).sum) / (first_half.length : ℚ)
    let second_avg := ((second_half.map (fun i => i.feedback.rating.getD 3)).sum) / (second_half.length : ℚ)
    if first_avg + 3/10 < second_avg then "improving"
    else if second_avg < first_avg - 3/10 then "declining"
    else "stable"

/-- Embedding of `_analyze_preferred_types` (lines 751-761): a placeholder
counter over accepted interactions. -/
def analyze_preferred_types (interactions : List Interaction) : List (String × Nat) :=
  let n := interactions.countP (fun i => i.feedback.action == "accepted")
  if n = 0 then [] else [("placeholder", n)]

/-- Embedding of `_calculate_confidence_trend` (lines 763-770). -/
def calculate_confidence_trend (interactions : List Interaction) : String :=
  if interactions.length < 5 then "establishing_baseline" else "stable"

/-- Embedding of `_generate_coaching_recommendations` (lines 772-792). -/
def generate_coaching_recommendations (profile : UserPreferenceProfile)
    (interactions : List Interaction) : List String :=
  let recs : List String := []
  let recs :=
    if profile.acceptance_rate < 3/10 then
      recs ++ ["AI recommendations may be too aggressive. Consider more conservative suggestions."]
    else recs
  let recs :=
    if 7/10 < profile.modification_frequency then
      recs ++ ["User frequently modifies suggestions. AI should learn from modification patterns."]
    else recs
  let recs :=
    if profile.total_interactions < 10 then
      recs ++ ["Limited interaction history. AI is still learning user preferences."]
    else if 100 < profile.total_interactions then
      recs ++ ["Extensive interaction history available. AI should be highly personalized."]
    else recs
  recs

/-- The `interaction_summary` sub-dict of the insights (lines 705-710). -/
structure InteractionSummary where
  total_interactions : Nat
  recent_acceptance_rate : ℚ
  improvement_trend : String
  preferred_recommendation_types : List (String × Nat)
deriving DecidableEq

/-- The `ai_performance` sub-dict of the insights (lines 711-716). -/
structure AIPerformance where
  confidence_trend : String
  accuracy_estimate : ℚ
  learning_stability : ℚ
  personalization_level : ℚ
deriving DecidableEq

/-- The insights dict returned by `get_user_insights` (lines 703-718). -/
structure UserInsights where
  user_profile : UserPreferenceProfile
  interaction_summary : InteractionSummary
  ai_performance : AIPerformance
  recommendations : List String
deriving DecidableEq

/-- Embedding of `get_user_insights` (lines 697-720), including the state
effects of its two reads: `get_user_profile` may create a profile and the
defaultdict access may create an empty history entry. -/
def get_user_insights (st : EngineState) (user_id : String) (now : ℚ) :
    UserInsights × EngineState :=
  let pr := get_user_profile st user_id now
  let profile := pr.1
  let hi := history_get pr.2 user_id
  let interactions := hi.1
  ({ user_profile := profile
   , interaction_summary :=
     { total_interactions := interactions.length
     , recent_acceptance_rate := calculate_recent_acceptance_rate interactions
     , improvement_trend := calculate_improvement_trend interactions
     , preferred_recommendation_types := analyze_preferred_types interactions }
   , ai_performance :=
     { confidence_trend := calculate_confidence_trend interactions
     , accuracy_estimate := profile.workout_confidence
     , learning_stability := 1 - profile.learning_rate
     , personalization_level := min 1 ((profile.total_interactions : ℚ) / 50) }
   , recommendations := generate_coaching_recommendations profile interactions },
   hi.2)

/-- Embedding of the `RecoveryMetrics` dataclass of
src/app/enhanced_nutrition_ai.py (lines 51-75). -/
structure RecoveryMetrics where
  user_id : String := ""
  date : String := ""
  hrv_score : Option ℚ := Option.none
  resting_heart_rate : Option ℚ := Option.none
  sleep_quality : Option ℚ := Option.none
  sleep_duration : Option ℚ := Option.none
  stress_level : Option ℚ := Option.none
  hydration_status : Option ℚ := Option.none
  recovery_score : ℚ := 0
  source : String := ""
deriving DecidableEq

/-- Embedding of `RecoveryMetrics.needs_hydration_boost` (lines 73-75);
a `0.0` hydration status is falsy. -/
def needs_hydration_boost (m : RecoveryMetrics) : Bool :=
  (match m.hydration_status with
   | some h => decide (h ≠ 0) && decide (h < 70)
   | Option.none => false)
  || decide (m.recovery_score < 40)

/-- One hydration recommendation dict (lines 277-283 and 297-336). -/
structure HydrationRec where
  time : String
  amount : ℚ
  reason : String
  priority : String
  completed : Bool
deriving DecidableEq

/-- Python `f"{n:02d}"`: decimal rendering zero-padded to width 2. -/
def pad2 (n : Int) : String :=
  let s := toString n
  if s.length < 2 then "0" ++ s else s

/-- Python `round(x, 2)`: round half to even at two decimal places
(exact-rational model of the float rounding). -/
def roundHalfEven2 (q : ℚ) : ℚ :=
  let m := q * 100
  let f : Int := m.num.fdiv m.den
  let d := m - (f : ℚ)
  let r : Int :=
    if d < 1/2 then f
    else if 1/2 < d then f + 1
    else if f % 2 = 0 then f else f + 1
  (r : ℚ) / 100

/-- Embedding of `generate_hydration_recommendations`
(src/app/enhanced_nutrition_ai.py, lines 268-338); `current_hour` stands for
`datetime.now().hour`, and the `for`-loop with its `break` at hour `> 22`
is the `takeWhile` over `range(min(4, hours_remaining))`. -/
def generate_hydration_recommendations (user_id : String)
    (recovery_metrics : RecoveryMetrics) (current_intake target_intake : ℚ)
    (current_hour : Int) : List HydrationRec :=
  let remaining := target_intake - current_intake
  if remaining ≤ 0 then
    [{ time := "now", amount := 1/4, reason := "maintenance", priority := "low"
     , completed := false }]
  else
    let hours_remaining := 22 - current_hour
    let hours_remaining := if hours_remaining ≤ 0 then 1 else hours_remaining
    let base_hourly := remaining / (hours_remaining : ℚ)
    if needs_hydration_boost recovery_metrics then
      [{ time := pad2 current_hour ++ ":00"
       , amount := min (1/2) (remaining * (3/10))
       , reason := "recovery_boost", priority := "high", completed := false },
       { time := pad2 (current_hour + 1) ++ ":00"
       , amount := min (2/5) (remaining * (1/4))
       , reason := "recovery_support", priority := "medium", completed := false }]
    else
      ((List.range (min 4 hours_remaining).toNat).takeWhile
          (fun i => decide ((current_hour + (i : Int)) ≤ 22))).map
        (fun i =>
          let hour := current_hour + (i : Int)
          let amount := base_hourly
          let pre := hour = 16 ∨ hour = 17 ∨ hour = 18
          { time := pad2 hour ++ ":00"
          , amount := roundHalfEven2 (if pre then amount * (6/5) else amount)
          , reason := if pre then "pre_workout" else "maintenance"
          , priority := if pre then "high" else "medium"
          , completed := false })

/-- JSON values, for modelling `json.loads` on model responses. -/
inductive Json where
  | null : Json
  | bool (b : Bool) : Json
  | num (q : ℚ) : Json
  | str (s : String) : Json
  | arr (l : List Json) : Json
  | obj (l : List (String × Json)) : Json

def jquote : Char := Char.ofNat 34
def jlbrace : Char := Char.ofNat 123
def jrbrace : Char := Char.ofNat 125
def jlbrack : Char := Char.ofNat 91
def jrbrack : Char := Char.ofNat 93
def jcomma : Char := Char.ofNat 44
def jcolon : Char := Char.ofNat 58
def jminus : Char := Char.ofNat 45
def jdot : Char := Char.ofNat 46

/-- Skip JSON whitespace. -/
def skipWs (cs : List Char) : List Char :=
  cs.dropWhile (fun c => c = ' ' ∨ c = '\n' ∨ c = '\t' ∨ c = '\r')

/-- Read a string body up to the closing quote (escape-free model). -/
def parseStringBody (cs : List Char) : Option (String × List Char) :=
  let body := cs.takeWhile (fun c => c ≠ jquote)
  match cs.drop body.length with
  | c :: rest => if c = jquote then some (String.mk body, rest) else Option.none
  | [] => Option.none

/-- Decimal digits to a natural number. -/
def digitsToNat (l : List Char) : Nat :=
  l.foldl (fun acc c => acc * 10 + (c.toNat - 48)) 0

/-- Fraction digits to a rational in [0, 1). -/
def fracToQ (l : List Char) : ℚ :=
  (digitsToNat l : ℚ) / ((10 : ℚ) ^ l.length)

/-- Parse a JSON number starting at `cs` (integer with optional minus sign
and optional fraction part). -/
def parseNumber (cs : List Char) : Option (Json × List Char) :=
  let core := fun (sign : ℚ) (ds : List Char) =>
    let digits := ds.takeWhile Char.isDigit
    if digits = [] then Option.none
    else
      let rest := ds.drop digits.length
      match rest with
      | c :: r2 =>
          if c = jdot then
            let fdigits := r2.takeWhile Char.isDigit
            if fdigits = [] then Option.none
            else some (Json.num (sign * ((digitsToNat digits : ℚ) + fracToQ fdigits)),
                       r2.drop fdigits.length)
          else some (Json.num (sign * (digitsToNat digits : ℚ)), rest)
      | [] => some (Json.num (sign * (digitsToNat digits : ℚ)), rest)
  match cs with
  | c :: rest => if c = jminus then core (-1) rest else core 1 cs
  | [] => Option.none

mutual

/-- Fuel-driven recursive-descent reader for a JSON value. -/
def parseJsonF : Nat → List Char → Option (Json × List Char)
  | 0, _ => Option.none
  | Nat.succ fuel, cs0 =>
      let cs := skipWs cs0
      match cs with
      | [] => Option.none
      | c :: rest =>
          if c = jquote then (parseStringBody rest).map (fun p => (Json.str p.1, p.2))
          else if c = jlbrace then parseObjF fuel rest []
          else if c = jlbrack then parseArrF fuel rest []
          else if c.isDigit ∨ c = jminus then parseNumber cs
          else if cs.take 4 = "true".data then some (Json.bool true, cs.drop 4)
          else if cs.take 5 = "false".data then some (Json.bool false, cs.drop 5)
          else if cs.take 4 = "null".data then some (Json.null, cs.drop 4)
          else Option.none

/-- Members of an object after the opening brace (no trailing commas). -/
def parseObjF : Nat → List Char → List (String × Json) →
    Option (Json × List Char)
  | 0, _, _ => Option.none
  | Nat.succ fuel, cs0, acc =>
      let cs := skipWs cs0
      match cs with
      | [] => Option.none
      | c :: rest =>
          if c = jrbrace then
            if acc.isEmpty then some (Json.obj [], rest) else Option.none
          else if c = jquote then
            match parseStringBody rest with
            | Option.none => Option.none
            | some (key, cs2) =>
                match skipWs cs2 with
                | c2 :: cs3 =>
                    if c2 = jcolon then
                      match parseJsonF fuel cs3 with
                      | Option.none => Option.none
                      | some (v, cs4) =>
                          match skipWs cs4 with
                          | c3 :: cs5 =>
                              if c3 = jcomma then parseObjF fuel cs5 (acc ++ [(key, v)])
                              else if c3 = jrbrace then
                                some (Json.obj (acc ++ [(key, v)]), cs5)
                              else Option.none
                          | [] => Option.none
                    else Option.none
                | [] => Option.none
          else Option.none

/-- Items of an array after the opening bracket (no trailing commas). -/
def parseArrF : Nat → List Char → List Json → Option (Json × List Char)
  | 0, _, _ => Option.none
  | Nat.succ fuel, cs0, acc =>
      let cs := skipWs cs0
      match cs with
      | [] => Option.none
      | c :: rest =>
          if c = jrbrack then
            if acc.isEmpty then some (Json.arr [], rest) else Option.none
          else
            match parseJsonF fuel cs with
            | Option.none => Option.none
            | some (v, cs2) =>
                match skipWs cs2 with
                | c2 :: cs3 =>
                    if c2 = jcomma then parseArrF fuel cs3 (acc ++ [v])
                    else if c2 = jrbrack then some (Json.arr (acc ++ [v]), cs3)
                    else Option.none
                | [] => Option.none

end

/-- Model of `json.loads`: parse one value and require only whitespace after
it (Python raises on extra data).  The reader is a minimal JSON model that is
exact on the object/number/string responses considered here. -/
def loads (s : String) : Option Json :=
  match parseJsonF (s.length * 2 + 8) s.data with
  | some (v, rest) => if skipWs rest = [] then some v else Option.none
  | Option.none => Option.none

/-- Python `str.find(c)`: index of the first occurrence. -/
def strFindChar (s : String) (c : Char) : Option Nat :=
  s.data.findIdx? (fun x => x = c)

/-- Python `str.rfind(c)`: index of the last occurrence. -/
def strRFindChar (s : String) (c : Char) : Option Nat :=
  match s.data.reverse.findIdx? (fun x => x = c) with
  | some i => some (s.data.length - 1 - i)
  | Option.none => Option.none

/-- Python slice `s[i:j]`. -/
def strSlice (s : String) (i j : Nat) : String :=
  String.mk ((s.data.drop i).take (j - i))

/-- The required fields of `_parse_ai_response` (line 432). -/
def required_fields : List String := ["type", "suggested_value", "reasoning"]

/-- Dict key membership. -/
def containsKey (l : List (String × Json)) (k : String) : Bool :=
  l.any (fun p => p.1 == k)

/-- One iteration of the validation loop of `_parse_ai_response`
(lines 433-435): a missing required field is inserted with the placeholder
`"AI generated <field>"`. -/
def fill_one (acc : List (String × Json)) (f : String) : List (String × Json) :=
  if containsKey acc f then acc
  else acc ++ [(f, Json.str ("AI generated " ++ f))]

/-- The validation loop of `_parse_ai_response` (lines 432-435). -/
def fill_required (fields : List (String × Json)) : List (String × Json) :=
  required_fields.foldl fill_one fields

/-- `PyVal` rendered as the JSON value `json.loads` would have produced. -/
def pyValToJson : PyVal → Json
  | PyVal.none => Json.null
  | PyVal.int n => Json.num (n : ℚ)
  | PyVal.num q => Json.num q
  | PyVal.str s => Json.str s
  | PyVal.list l => Json.arr (l.map (fun n => Json.num (n : ℚ)))

/-- The dict built by the `except` branch of `_parse_ai_response`
(lines 439-449). -/
def parse_error_dict (exercise_data : ExerciseData) : List (String × Json) :=
  [("type", Json.str "maintain_program"),
   ("suggested_value", pyValToJson (exercise_data.planned_value.getD PyVal.none)),
   ("reasoning", Json.str "Using fallback due to parsing error"),
   ("factors", Json.arr [Json.str "parsing_error"]),
   ("expected_outcome", Json.str "Maintain current program"),
   ("risk_assessment", Json.str "Low"),
   ("confidence_score", Json.num (3/10))]

/-- Embedding of `_parse_ai_response` (lines 418-449): find the first `&#123;`
and the last `&#125;` (naive slice), `json.loads` the slice, fill missing
required fields; any failure yields the parse-error dict. -/
def parse_ai_response (response_text : String) (exercise_data : ExerciseData) :
    List (String × Json) :=
  match strFindChar response_text jlbrace, strRFindChar response_text jrbrace with
  | some json_start, some jr =>
      let json_end := jr + 1
      if json_end ≤ json_start then parse_error_dict exercise_data
      else
        match loads (strSlice response_text json_start json_end) with
        | some (Json.obj fields) => fill_required fields
        | _ => parse_error_dict exercise_data
  | _, _ => parse_error_dict exercise_data

/-- Brace-balanced scanning from the first opening brace. -/
def balancedScan : List Char → Nat → List Char → Option String
  | [], _, _ => Option.none
  | c :: rest, depth, acc =>
      if c = jlbrace then balancedScan rest (depth + 1) (acc ++ [c])
      else if c = jrbrace then
        if depth = 1 then some (String.mk (acc ++ [c]))
        else balancedScan rest (depth - 1) (acc ++ [c])
      else balancedScan rest depth (acc ++ [c])

/-- Modelled from the spec: the extraction the spec claims the parser uses,
brace-balanced scanning that counts opening and closing braces from the
first opening brace until the depth returns to zero, yielding the first
complete JSON object.  This definition follows the spec wording and exists
only to be compared with `parse_ai_response`, which embeds the source. -/
def brace_balanced_extract_spec (s : String) : Option String :=
  balancedScan (s.data.dropWhile (fun c => c ≠ jlbrace)) 0 []

/-- The personalization-then-safety stage of
`generate_personalized_recommendation` (lines 221-229), applied to a raw
suggestion. -/
def personalize_then_safety (s : Suggestion) (profile : UserPreferenceProfile)
    (context_analysis : ContextAnalysis) (exercise_data : ExerciseData) :
    Option Suggestion :=
  apply_safety_constraints (personalize_recommendation s profile context_analysis)
    exercise_data

/-- Numeric suggested value carried by an optional suggestion. -/
def valOf (o : Option Suggestion) : Option ℚ :=
  o.bind (fun r => toQ r.suggested_value)

/-- Element `i` of a list-valued suggested value, as a rational. -/
def listValAt (o : Option Suggestion) (i : Nat) : Option ℚ :=
  match o with
  | some r =>
      match r.suggested_value with
      | PyVal.list l => some ((l.getD i 0 : Int) : ℚ)
      | _ => Option.none
  | Option.none => Option.none

/-- A present value bounded below (an absent value fails the bound). -/
def optGE (o : Option ℚ) (b : ℚ) : Prop :=
  match o with
  | some v => b ≤ v
  | Option.none => False

/-- A present value bounded above (an absent value fails the bound). -/
def optLE (o : Option ℚ) (b : ℚ) : Prop :=
  match o with
  | some v => v ≤ b
  | Option.none => False

/-- The bounds C6 tracks: behavioural rates and confidence scalars in
[0, 1] and the learning rate in [0.05, 0.3]. -/
def ProfileBounded (p : UserPreferenceProfile) : Prop :=
  0 ≤ p.acceptance_rate ∧ p.acceptance_rate ≤ 1 ∧
  0 ≤ p.modification_frequency ∧ p.modification_frequency ≤ 1 ∧
  0 ≤ p.skip_rate ∧ p.skip_rate ≤ 1 ∧
  0 ≤ p.workout_confidence ∧ p.workout_confidence ≤ 1 ∧
  0 ≤ p.exercise_confidence ∧ p.exercise_confidence ≤ 1 ∧
  0 ≤ p.intensity_confidence ∧ p.intensity_confidence ≤ 1 ∧
  1/20 ≤ p.learning_rate ∧ p.learning_rate ≤ 3/10

instance (p : UserPreferenceProfile) : Decidable (ProfileBounded p) := by
  unfold ProfileBounded; infer_instance

/-- Fixture: a fresh profile with all dataclass defaults. -/
def defaultProfile : UserPreferenceProfile := {user_id := "u1"}

/-- Fixture: an empty context (all optional signals absent). -/
def ctxEmpty : WorkoutContext := {}

/-- Fixture: an exercise-data dict with no keys. -/
def dEmpty : ExerciseData := {}

/-- Fixture: a context reporting energy 2 of 10, which drives
`energy_alignment` to 2/7 (below the 0.5 threshold of rule 3). -/
def ctxLowEnergy : WorkoutContext := {user_energy := some 2}

/-- Fixture: a context reporting motivation 20 on the 0-10 scale. -/
def ctxHighMotivation : WorkoutContext := {user_motivation := some 20}

/-- Fixture: planned weight 100. -/
def dW100 : ExerciseData := {planned_weight := some 100}

/-- Fixture: a raw weight-increase suggestion of 200 against a plan of 100,
violating the 10 percent cap. -/
def sW200 : Suggestion :=
  { type := "weight_increase", suggested_value := PyVal.num 200
  , reasoning := "r", confidence_score := some (1/2) }

/-- Fixture: planned reps 9. -/
def d9 : ExerciseData := {planned_reps := some (PyVal.int 9)}

/-- Fixture: a rep-reduction suggestion of 7 reps against a plan of 9. -/
def s7 : Suggestion :=
  { type := "rep_reduction", suggested_value := PyVal.int 7
  , reasoning := "r", confidence_score := some (1/2) }

/-- Fixture: a rest-reduction suggestion of 10 seconds. -/
def sRest10 : Suggestion :=
  { type := "rest_reduction", suggested_value := PyVal.int 10
  , reasoning := "r", confidence_score := some (1/2) }

/-- Fixture: a weight-increase suggestion of 105 against a plan of 100,
inside the 10 percent cap. -/
def sW105 : Suggestion :=
  { type := "weight_increase", suggested_value := PyVal.num 105
  , reasoning := "r", confidence_score := some (1/2) }

/-- Fixture: the neutral factor map (all signals absent). -/
def caNeutral : ContextAnalysis := {}

/-- Fixture: a mature profile (30 interactions) for the confidence formula. -/
def p30 : UserPreferenceProfile := {user_id := "u1", total_interactions := 30}

/-- Fixture: a suggestion whose reported confidence is 0. -/
def r0 : Suggestion :=
  { type := "weight_increase", suggested_value := PyVal.num 100
  , reasoning := "r", confidence_score := some 0 }

/-- Fixture: a model response holding two complete JSON objects. -/
def respTwoObjects : String := "\x7b\x22a\x22: 1\x7d \x7b\x22b\x22: 2\x7d"

/-- Fixture: the first complete object of `respTwoObjects`. -/
def jsonObjA : String := "\x7b\x22a\x22: 1\x7d"

/-- Fixture: a model response with no JSON at all. -/
def respGarbage : String := "garbage no json"

/-- Fixture: a complete recommendation object wrapped in prose. -/
def respProseWrapped : String :=
  "Here is the recommendation: \x7b\x22type\x22: \x22maintain_program\x22, \x22suggested_value\x22: 5, \x22reasoning\x22: \x22ok\x22\x7d thanks"

/-- Fixture: a parsable object missing all three required fields. -/
def respMissingFields : String := "note \x7b\x22foo\x22: 1\x7d done"

/-- Fixture: an engine state with no users. -/
def stEmpty : EngineState := {}

/-- Fixture: an engine state already holding user u1 with an empty
history. -/
def st1 : EngineState :=
  { user_profiles := [("u1", defaultProfile)]
  , interaction_history := [("u1", [])] }

/-- Fixture: an accepted-feedback payload with rating and fast response. -/
def fbAccepted : Feedback :=
  {action := "accepted", rating := some 5, response_time := some 2}

/-- Fixture: a single accepted interaction. -/
def oneAccepted : List Interaction :=
  [{tweak_id := "t1", feedback := {action := "accepted"}, timestamp := 0}]

/-! Helper lemmas. -/

lemma clip01_mem (x : ℚ) : 0 ≤ clip x 0 1 ∧ clip x 0 1 ≤ 1 :=
  ⟨le_max_left 0 _, max_le (by norm_num) (min_le_right x 1)⟩

lemma ema_mem_01 (a v lr : ℚ) (ha0 : 0 ≤ a) (ha1 : a ≤ 1) (hv0 : 0 ≤ v)
    (hv1 : v ≤ 1) (hl0 : 0 ≤ lr) (hl1 : lr ≤ 1) :
    0 ≤ ema a v lr ∧ ema a v lr ≤ 1 := by
  unfold ema
  constructor <;> nlinarith

lemma rule_formfocus_id (s : Suggestion) (p : UserPreferenceProfile)
    (h1 : s.type ≠ "weight_increase") (h2 : s.type ≠ "rep_increase") :
    personalize_rule_formfocus s p = s := by
  unfold personalize_rule_formfocus
  rw [if_neg]
  rintro ⟨-, h | h⟩
  · exact h1 h
  · exact h2 h

lemma rule_volume_id (s : Suggestion) (p : UserPreferenceProfile)
    (h1 : s.type ≠ "volume_increase") (h2 : s.type ≠ "set_increase") :
    personalize_rule_volume s p = s := by
  unfold personalize_rule_volume
  rw [if_neg]
  rintro ⟨-, h | h⟩
  · exact h1 h
  · exact h2 h

lemma rule_energy_id (s : Suggestion) (ca : ContextAnalysis)
    (h1 : s.type ≠ "weight_increase") (h2 : s.type ≠ "rep_increase")
    (h3 : s.type ≠ "intensity_increase") :
    personalize_rule_energy s ca = s := by
  unfold personalize_rule_energy
  rw [if_neg]
  rintro ⟨-, h | h | h⟩
  · exact h1 h
  · exact h2 h
  · exact h3 h

lemma rule_acceptance_type_value (s : Suggestion) (p : UserPreferenceProfile) :
    (personalize_rule_acceptance s p).type = s.type
    ∧ (personalize_rule_acceptance s p).suggested_value = s.suggested_value := by
  unfold personalize_rule_acceptance
  split_ifs <;> exact ⟨rfl, rfl⟩

lemma personalize_keeps_type_value (s : Suggestion) (p : UserPreferenceProfile)
    (ca : ContextAnalysis)
    (h1 : s.type ≠ "weight_increase") (h2 : s.type ≠ "rep_increase")
    (h3 : s.type ≠ "volume_increase") (h4 : s.type ≠ "set_increase")
    (h5 : s.type ≠ "intensity_increase") :
    (personalize_recommendation s p ca).type = s.type
    ∧ (personalize_recommendation s p ca).suggested_value = s.suggested_value := by
  unfold personalize_recommendation
  rw [rule_formfocus_id s p h1 h2, rule_volume_id s p h3 h4, rule_energy_id s ca h1 h2 h5]
  exact rule_acceptance_type_value s p

lemma rule_volume_value (s : Suggestion) (p : UserPreferenceProfile) :
    (personalize_rule_volume s p).suggested_value = s.suggested_value := by
  unfold personalize_rule_volume
  split_ifs <;> rfl

lemma rule_energy_value (s : Suggestion) (ca : ContextAnalysis) :
    (personalize_rule_energy s ca).suggested_value = s.suggested_value := by
  unfold personalize_rule_energy
  split_ifs <;> rfl

lemma rule_formfocus_numeric (s : Suggestion) (p : UserPreferenceProfile) (q : ℚ)
    (hq : toQ s.suggested_value = some q) :
    ∃ q' : ℚ, toQ (personalize_rule_formfocus s p).suggested_value = some q' := by
  unfold personalize_rule_formfocus
  split_ifs with h
  · cases hv : s.suggested_value <;> rw [hv] at hq <;> simp [toQ] at hq <;> simp [toQ]
  · exact ⟨q, hq⟩

lemma personalize_value_numeric (s : Suggestion) (p : UserPreferenceProfile)
    (ca : ContextAnalysis) (q : ℚ) (hq : toQ s.suggested_value = some q) :
    ∃ q' : ℚ, toQ (personalize_recommendation s p ca).suggested_value = some q' := by
  obtain ⟨q', hq'⟩ := rule_formfocus_numeric s p q hq
  unfold personalize_recommendation
  rw [(rule_acceptance_type_value _ p).2, rule_energy_value, rule_volume_value]
  exact ⟨q', hq'⟩

lemma safety_skip_rep (rec : Suggestion) (d : ExerciseData)
    (sc : Suggestion × List String) (h : rec.type ≠ "rep_reduction") :
    safety_step_rep rec d sc = some sc := by
  unfold safety_step_rep
  rw [if_neg h]

lemma safety_skip_weight (rec : Suggestion) (d : ExerciseData)
    (sc : Suggestion × List String) (h : rec.type ≠ "weight_increase") :
    safety_step_weight rec d sc = some sc := by
  unfold safety_step_weight
  rw [if_neg h]

lemma safety_skip_rest (rec : Suggestion) (sc : Suggestion × List String)
    (h : rec.type ≠ "rest_reduction") :
    safety_step_rest rec sc = some sc := by
  unfold safety_step_rest
  rw [if_neg h]

lemma safety_finalize_value (sc : Suggestion × List String) :
    (safety_finalize sc).suggested_value = sc.1.suggested_value := by
  unfold safety_finalize
  split_ifs <;> rfl

lemma list_getD_map (f : Int → Int) (l : List Int) : ∀ i : Nat, i < l.length →
    (l.map f).getD i 0 = f (l.getD i 0) := by
  induction l with
  | nil => intro i h; simp at h
  | cons a t ih =>
      intro i h
      cases i with
      | zero => rfl
      | succ j => exact ih j (by simpa using h)

lemma list_getD_zip_max (a : List Int) : ∀ (b : List Int) (i : Nat),
    i < a.length → i < b.length →
    ((a.zip b).map (fun p => max p.1 p.2)).getD i 0 = max (a.getD i 0) (b.getD i 0) := by
  induction a with
  | nil => intro b i h _; simp at h
  | cons x xs ih =>
      intro b i h1 h2
      cases b with
      | nil => simp at h2
      | cons y ys =>
          cases i with
          | zero => rfl
          | succ j => exact ih ys j (by simpa using h1) (by simpa using h2)

lemma containsKey_fill_one_self (acc : List (String × Json)) (f : String) :
    containsKey (fill_one acc f) f = true := by
  unfold fill_one
  split_ifs with h
  · exact h
  · simp [containsKey, List.any_append]

lemma containsKey_fill_one_mono (acc : List (String × Json)) (f g : String)
    (h : containsKey acc g = true) : containsKey (fill_one acc f) g = true := by
  unfold fill_one
  split_ifs with h2
  · exact h
  · unfold containsKey at h ⊢
    simp only [List.any_append, h, Bool.true_or]

lemma fill_required_has_keys (l : List (String × Json)) :
    containsKey (fill_required l) "type" = true
    ∧ containsKey (fill_required l) "suggested_value" = true
    ∧ containsKey (fill_required l) "reasoning" = true := by
  show containsKey (fill_one (fill_one (fill_one l "type") "suggested_value") "reasoning") "type" = true ∧ _ ∧ _
  refine ⟨?_, ?_, ?_⟩
  · exact containsKey_fill_one_mono _ _ _
      (containsKey_fill_one_mono _ _ _ (containsKey_fill_one_self l "type"))
  · exact containsKey_fill_one_mono _ _ _ (containsKey_fill_one_self _ "suggested_value")
  · exact containsKey_fill_one_self _ "reasoning"

lemma safety_rep_scalar_bound (rec : Suggestion) (d : ExerciseData) (oq q : ℚ)
    (hty : rec.type = "rep_reduction")
    (ho : toQ (d.planned_reps.getD (PyVal.int 10)) = some oq)
    (hq : toQ rec.suggested_value = some q) :
    optGE (valOf (apply_safety_constraints rec d))
      ((max 1 (pyTrunc (oq * (4/5))) : Int) : ℚ) := by
  have hw : rec.type ≠ "weight_increase" := by rw [hty]; decide
  have hr : rec.type ≠ "rest_reduction" := by rw [hty]; decide
  unfold apply_safety_constraints
  unfold safety_step_rep
  rw [if_pos hty]
  cases hO : d.planned_reps.getD (PyVal.int 10) <;> rw [hO] at ho <;>
    simp only [toQ, Option.some.injEq, reduceCtorEq] at ho
  all_goals
    cases hS : rec.suggested_value <;> rw [hS] at hq <;>
      simp only [toQ, Option.some.injEq, reduceCtorEq] at hq
  all_goals subst ho
  all_goals subst hq
  all_goals
    simp only [toQ]
    split_ifs with hlt <;>
      simp only [safety_skip_weight _ _ _ hw, safety_skip_rest _ _ hr, valOf,
        Option.bind_eq_bind, Option.some_bind, safety_finalize_value, hS, toQ, optGE] <;>
      first
        | exact le_refl _
        | exact le_of_not_lt hlt

lemma safety_rest_bound (rec : Suggestion) (d : ExerciseData) (q : ℚ)
    (hty : rec.type = "rest_reduction") (hq : toQ rec.suggested_value = some q) :
    optGE (valOf (apply_safety_constraints rec d)) 30 := by
  have hp : rec.type ≠ "rep_reduction" := by rw [hty]; decide
  have hw : rec.type ≠ "weight_increase" := by rw [hty]; decide
  unfold apply_safety_constraints
  simp only [safety_skip_rep _ _ _ hp, safety_skip_weight _ _ _ hw]
  unfold safety_step_rest
  rw [if_pos hty, hq]
  dsimp only
  split_ifs with hlt
  · simp only [valOf, Option.bind_eq_bind, Option.some_bind, safety_finalize_value,
      toQ, optGE]
    norm_num
  · simp only [valOf, Option.bind_eq_bind, Option.some_bind, safety_finalize_value,
      hq, optGE]
    exact le_of_not_lt hlt

lemma safety_weight_bound (rec : Suggestion) (d : ExerciseData) (w q : ℚ)
    (hty : rec.type = "weight_increase") (hw : d.planned_weight = some w)
    (h0 : 0 < w) (hq : toQ rec.suggested_value = some q) :
    optLE (valOf (apply_safety_constraints rec d)) (w * (1 + 1/10)) := by
  have hp : rec.type ≠ "rep_reduction" := by rw [hty]; decide
  have hr : rec.type ≠ "rest_reduction" := by rw [hty]; decide
  unfold apply_safety_constraints
  simp only [safety_skip_rep _ _ _ hp]
  unfold safety_step_weight
  rw [if_pos hty, hw]
  simp only [Option.getD_some]
  rw [if_pos h0, hq]
  dsimp only
  split_ifs with hlt
  · simp only [safety_skip_rest _ _ hr, valOf, Option.bind_eq_bind, Option.some_bind,
      safety_finalize_value, toQ, optLE]
    exact le_refl _
  · simp only [safety_skip_rest _ _ hr, valOf, Option.bind_eq_bind, Option.some_bind,
      safety_finalize_value, hq, optLE]
    exact le_of_not_lt hlt

lemma clamped_list_getD (os ss : List Int) (i : Nat)
    (hiS : i < ss.length) (hiO : i < os.length) :
    max 1 (pyTrunc ((os.getD i 0 : ℚ) * (4/5)))
      ≤ ((ss.zip (os.map (fun o : Int => max 1 (pyTrunc ((o : ℚ) * (4/5)))))).map
          (fun p => max p.1 p.2)).getD i 0 := by
  have hiM : i < (os.map (fun o : Int => max 1 (pyTrunc ((o : ℚ) * (4/5))))).length := by
    simpa using hiO
  rw [list_getD_zip_max ss _ i hiS hiM,
    list_getD_map (fun o : Int => max 1 (pyTrunc ((o : ℚ) * (4/5)))) os i hiO]
  exact le_max_right _ _

lemma safety_rep_list_bound (rec : Suggestion) (d : ExerciseData)
    (os ss : List Int) (hty : rec.type = "rep_reduction")
    (ho : d.planned_reps = some (PyVal.list os)) (hs : rec.suggested_value = PyVal.list ss)
    (i : Nat) (hi : i < min ss.length os.length) :
    optGE (listValAt (apply_safety_constraints rec d) i)
      ((max 1 (pyTrunc ((os.getD i 0 : ℚ) * (4/5))) : Int) : ℚ) := by
  have hwt : rec.type ≠ "weight_increase" := by rw [hty]; decide
  have hrt : rec.type ≠ "rest_reduction" := by rw [hty]; decide
  have hiS : i < ss.length := lt_of_lt_of_le hi (min_le_left _ _)
  have hiO : i < os.length := lt_of_lt_of_le hi (min_le_right _ _)
  unfold apply_safety_constraints safety_step_rep
  rw [if_pos hty, ho, hs]
  simp only [Option.getD_some]
  split_ifs with hne <;>
    simp only [safety_skip_weight _ _ _ hwt, safety_skip_rest _ _ hrt, listValAt,
      Option.bind_eq_bind, Option.some_bind, safety_finalize_value, hs, optGE]
  · exact_mod_cast clamped_list_getD os ss i hiS hiO
  · push_neg at hne
    rw [← hne]
    exact_mod_cast clamped_list_getD os ss i hiS hiO

/-- C1 (amended): after `_personalize_recommendation` followed by
`_apply_safety_constraints`, a numeric rep-reduction value is clamped to the
rep floor `max(1, int(planned * 0.8))` and a numeric rest-reduction value to
the 30-second floor, for every profile and context (personalization never
touches these action types); a numeric weight-increase value against a
positive planned weight is clamped to `planned * 1.1` whenever the
personalized action type is still `weight_increase` — when a
personalization rule has overridden the type to `maintain_program`, the
safety stage no longer applies the weight cap (see the counterexample). -/
theorem personalize_safety_clamps (s : Suggestion) (p : UserPreferenceProfile)
    (ca : ContextAnalysis) (d : ExerciseData) (q : ℚ)
    (hq : toQ s.suggested_value = some q) :
    (∀ oq : ℚ, s.type = "rep_reduction" →
      toQ (d.planned_reps.getD (PyVal.int 10)) = some oq →
      optGE (valOf (personalize_then_safety s p ca d))
        ((max 1 (pyTrunc (oq * (4/5))) : Int) : ℚ))
    ∧ (s.type = "rest_reduction" →
      optGE (valOf (personalize_then_safety s p ca d)) 30)
    ∧ (∀ w : ℚ, s.type = "weight_increase" → d.planned_weight = some w → 0 < w →
      (personalize_recommendation s p ca).type = "weight_increase" →
      optLE (valOf (personalize_then_safety s p ca d)) (w * (1 + 1/10))) := by
  refine ⟨?_, ?_, ?_⟩
  · intro oq hty ho
    have hk := personalize_keeps_type_value s p ca
      (by rw [hty]; decide) (by rw [hty]; decide) (by rw [hty]; decide)
      (by rw [hty]; decide) (by rw [hty]; decide)
    unfold personalize_then_safety
    exact safety_rep_scalar_bound _ d oq q (hk.1.trans hty) ho (by rw [hk.2]; exact hq)
  · intro hty
    have hk := personalize_keeps_type_value s p ca
      (by rw [hty]; decide) (by rw [hty]; decide) (by rw [hty]; decide)
      (by rw [hty]; decide) (by rw [hty]; decide)
    unfold personalize_then_safety
    exact safety_rest_bound _ d q (hk.1.trans hty) (by rw [hk.2]; exact hq)
  · intro w hty hw h0 hpt
    obtain ⟨q2, hq2⟩ := personalize_value_numeric s p ca q hq
    unfold personalize_then_safety
    exact safety_weight_bound _ d w q2 hpt hw h0 hq2

/-- Witness for C1 at concrete inputs: a 10-second rest reduction is lifted
to 30 and a 105 weight increase against plan 100 stays within the cap. -/
theorem personalize_safety_clamps_witness :
    optGE (valOf (personalize_then_safety sRest10 defaultProfile caNeutral dEmpty)) 30
    ∧ optLE (valOf (personalize_then_safety sW105 defaultProfile caNeutral dW100))
        (100 * (1 + 1/10)) :=
  ⟨(personalize_safety_clamps sRest10 defaultProfile caNeutral dEmpty 10
      (by with_unfolding_all decide)).2.1 rfl,
   (personalize_safety_clamps sW105 defaultProfile caNeutral dW100 105
      (by with_unfolding_all decide)).2.2 100 rfl rfl (by norm_num)
      (by with_unfolding_all decide)⟩

/-- C1 counterexample: a raw weight-increase suggestion of 200 against a
planned weight of 100 violates the 10 percent cap, yet when the low-energy
personalization rule fires the type is overridden to `maintain_program` and
the safety stage passes the unclamped 200 through. -/
theorem personalize_safety_clamps_counterexample :
    personalize_then_safety sW200 defaultProfile
        (analyze_context ctxLowEnergy defaultProfile) dW100
      = some { type := "maintain_program", suggested_value := PyVal.num 200
             , reasoning := "Conservative approach due to current energy/motivation levels"
             , factors := [], expected_outcome := "", risk_assessment := "Low"
             , confidence_score := some (1/2) }
    ∧ dW100.planned_weight = some 100
    ∧ ¬((200 : ℚ) ≤ 100 * (1 + 1/10)) :=
  ⟨by with_unfolding_all decide, rfl, by norm_num⟩

/-- C2 (amended): every rep-reduction recommendation that leaves
`_apply_safety_constraints` with a numeric value is at least
`max(1, int(planned_reps * 0.8))` — the floor the code computes with `int`
(truncation), not `ceil` as the claim states (see the counterexample) — and
when both planned and suggested reps are lists the bound holds element-wise
with the same floor over the zipped prefix. -/
theorem rep_floor_after_safety (rec : Suggestion) (d : ExerciseData)
    (hty : rec.type = "rep_reduction") :
    (∀ oq q : ℚ, toQ (d.planned_reps.getD (PyVal.int 10)) = some oq →
      toQ rec.suggested_value = some q →
      optGE (valOf (apply_safety_constraints rec d))
        ((max 1 (pyTrunc (oq * (4/5))) : Int) : ℚ))
    ∧ (∀ (os ss : List Int), d.planned_reps = some (PyVal.list os) →
      rec.suggested_value = PyVal.list ss →
      ∀ i : Nat, i < min ss.length os.length →
      optGE (listValAt (apply_safety_constraints rec d) i)
        ((max 1 (pyTrunc ((os.getD i 0 : ℚ) * (4/5))) : Int) : ℚ)) :=
  ⟨fun oq q ho hq => safety_rep_scalar_bound rec d oq q hty ho hq,
   fun os ss ho hs i hi => safety_rep_list_bound rec d os ss hty ho hs i hi⟩

/-- Witness for C2: planned reps 9, suggested 7; the clamp raises the value
to the code floor 7 = int(9*0.8), satisfying the bound. -/
theorem rep_floor_after_safety_witness :
    optGE (valOf (apply_safety_constraints s7 d9))
      ((max 1 (pyTrunc ((9 : ℚ) * (4/5))) : Int) : ℚ) :=
  (rep_floor_after_safety s7 d9 rfl).1 9 7 (by with_unfolding_all decide)
    (by with_unfolding_all decide)

/-- C2 counterexample: with planned reps 9 the code floor is
`int(9*0.8) = 7`, so a suggestion of 7 passes unchanged even though
`ceil(9*0.8) = 8`; the claimed ceil bound fails. -/
theorem rep_floor_counterexample :
    (apply_safety_constraints s7 d9).map (fun r => r.suggested_value)
        = some (PyVal.int 7)
    ∧ (⌈(9 : ℚ) * (4/5)⌉ : Int) = 8
    ∧ (7 : Int) < 8 :=
  ⟨by with_unfolding_all decide, by norm_num [Int.ceil_eq_iff], by decide⟩

lemma apply_safety_noop (rec : Suggestion) (d : ExerciseData)
    (h1 : rec.type ≠ "rep_reduction") (h2 : rec.type ≠ "weight_increase")
    (h3 : rec.type ≠ "rest_reduction") :
    apply_safety_constraints rec d = some rec := by
  unfold apply_safety_constraints
  simp only [safety_skip_rep _ _ _ h1, safety_skip_weight _ _ _ h2,
    safety_skip_rest _ _ h3]
  rfl

/-- C3 (amended): with the model unavailable, when none of the rule-based
branches for struggle, completion-progression or time pressure fires,
`generate_personalized_recommendation` returns (without raising) the default
maintain recommendation whose risk assessment is "Very Low" — but whose
reasoning does not contain the word "fallback"; the word appears in no
rule-based reasoning (see the counterexample for the struggle branch, whose
risk tier is moreover "Low"). -/
theorem fallback_default_branch_properties (profile : UserPreferenceProfile)
    (exercise_data : ExerciseData) (context : WorkoutContext) (event_type : String)
    (h1 : event_type ≠ "struggle_set")
    (h2 : ¬(event_type = "complete_set" ∧ 7/10 < profile.progression_rate))
    (h3 : fallback_time_branch context profile = false) :
    (generate_personalized_recommendation_noModel profile exercise_data context
        event_type).map
        (fun r => (r.type, r.risk_assessment, strContains r.reasoning "fallback"))
      = some ("maintain_program", "Very Low", false) := by
  unfold generate_personalized_recommendation_noModel generate_fallback_recommendation
  rw [if_neg h1, if_neg h2, if_neg (by simp [h3])]
  unfold personalize_recommendation
  dsimp only
  rw [rule_formfocus_id _ _ (by simp) (by simp),
    rule_volume_id _ _ (by simp) (by simp),
    rule_energy_id _ _ (by simp) (by simp) (by simp)]
  unfold personalize_rule_acceptance
  split_ifs with hacc <;>
    · rw [apply_safety_noop _ _ (by simp) (by simp) (by simp)]
      rfl

/-- Witness for C3: with the default profile (progression rate 0.5) a
complete-set event falls to the default branch. -/
theorem fallback_default_branch_properties_witness :
    (generate_personalized_recommendation_noModel defaultProfile dEmpty ctxEmpty
        "complete_set").map
        (fun r => (r.type, r.risk_assessment, strContains r.reasoning "fallback"))
      = some ("maintain_program", "Very Low", false) :=
  fallback_default_branch_properties defaultProfile dEmpty ctxEmpty "complete_set"
    (by decide) (by with_unfolding_all decide) (by decide)

/-- C3 counterexample: on a struggle event with the model unavailable the
engine returns the struggle fallback, whose risk assessment is "Low", not
"Very Low", and whose reasoning does not contain the word "fallback" — the
claimed conjunction fails on this internal-failure path. -/
theorem fallback_struggle_counterexample :
    (generate_personalized_recommendation_noModel defaultProfile dEmpty ctxEmpty
        "struggle_set").map
        (fun r => (r.risk_assessment, strContains r.reasoning "fallback"))
      = some ("Low", false)
    ∧ ("Low" : String) ≠ "Very Low" :=
  ⟨by with_unfolding_all decide, by decide⟩

/-- C4 (amended): `_parse_ai_response` is total (no exception propagates);
on any extraction or parse failure it returns the fixed `maintain_program`
parse-error dict — not the rule-based decision-table recommendation — and
when the parsed object merely misses required fields, those are filled with
`"AI generated <field>"` placeholders and the object itself is returned
rather than falling back; either way the result carries all three required
keys. -/
theorem parse_response_always_has_required_keys (response_text : String)
    (exercise_data : ExerciseData) :
    containsKey (parse_ai_response response_text exercise_data) "type" = true
    ∧ containsKey (parse_ai_response response_text exercise_data) "suggested_value" = true
    ∧ containsKey (parse_ai_response response_text exercise_data) "reasoning" = true := by
  have herr : ∀ d : ExerciseData,
      containsKey (parse_error_dict d) "type" = true
      ∧ containsKey (parse_error_dict d) "suggested_value" = true
      ∧ containsKey (parse_error_dict d) "reasoning" = true := fun d => ⟨rfl, rfl, rfl⟩
  unfold parse_ai_response
  cases strFindChar response_text jlbrace with
  | none => exact herr exercise_data
  | some json_start =>
      cases strRFindChar response_text jrbrace with
      | none => exact herr exercise_data
      | some jr =>
          dsimp only
          split_ifs
          · exact herr exercise_data
          · cases hl : loads (strSlice response_text json_start (jr + 1)) with
            | none => exact herr exercise_data
            | some v =>
                cases v with
                | obj fields => exact fill_required_has_keys fields
                | null => exact herr exercise_data
                | bool b => exact herr exercise_data
                | num q => exact herr exercise_data
                | str st => exact herr exercise_data
                | arr l => exact herr exercise_data

/-- C4 counterexample: a garbage response yields the fixed maintain_program
parse-error dict, not the rule-based recommendation (which for a struggle
event is a rep reduction); a parsed object missing the required fields is
returned with placeholders — again not the rule-based recommendation. -/
theorem parse_fallback_counterexample :
    parse_ai_response respGarbage dEmpty = parse_error_dict dEmpty
    ∧ (parse_ai_response respGarbage dEmpty).lookup "type"
        = some (Json.str "maintain_program")
    ∧ (generate_fallback_recommendation dEmpty ctxEmpty defaultProfile
        "struggle_set").map (fun r => r.type) = some "rep_reduction"
    ∧ ("maintain_program" : String) ≠ "rep_reduction"
    ∧ parse_ai_response respMissingFields dEmpty
        = [("foo", Json.num 1), ("type", Json.str "AI generated type"),
           ("suggested_value", Json.str "AI generated suggested_value"),
           ("reasoning", Json.str "AI generated reasoning")] :=
  ⟨by with_unfolding_all rfl, by with_unfolding_all rfl, by with_unfolding_all rfl,
   by decide, by with_unfolding_all rfl⟩

/-- C5 (amended): JSON extraction is the naive slice from the first opening
brace to the last closing brace, not brace-balanced scanning: prose around a
single object is tolerated only because it contains no further braces, while
a response holding two complete objects makes the naive slice unparsable
(json.loads rejects the trailing data) and the parse-error dict is returned,
even though brace-balanced scanning — the algorithm the claim describes —
extracts the first complete object. -/
theorem json_extraction_naive_slice :
    parse_ai_response respProseWrapped dEmpty
      = [("type", Json.str "maintain_program"), ("suggested_value", Json.num 5),
         ("reasoning", Json.str "ok")]
    ∧ parse_ai_response respTwoObjects dEmpty = parse_error_dict dEmpty
    ∧ loads respTwoObjects = Option.none
    ∧ brace_balanced_extract_spec respTwoObjects = some jsonObjA
    ∧ loads jsonObjA = some (Json.obj [("a", Json.num 1)]) :=
  ⟨by with_unfolding_all rfl, by with_unfolding_all rfl, by with_unfolding_all rfl,
   by with_unfolding_all rfl, by with_unfolding_all rfl⟩

/-- C5 counterexample: on the two-object response, brace-balanced scanning
finds the first complete object, but the code returns the parse-error dict,
which does not even contain the key of that object. -/
theorem json_extraction_counterexample :
    brace_balanced_extract_spec respTwoObjects = some jsonObjA
    ∧ loads jsonObjA = some (Json.obj [("a", Json.num 1)])
    ∧ parse_ai_response respTwoObjects dEmpty = parse_error_dict dEmpty
    ∧ containsKey (parse_ai_response respTwoObjects dEmpty) "a" = false :=
  ⟨by with_unfolding_all rfl, by with_unfolding_all rfl, by with_unfolding_all rfl,
   by with_unfolding_all rfl⟩

/-- C7 (amended): the returned confidence equals
`clip((base + maturity_bonus) * (0.5 + 0.5*acceptance) * (0.7 + 0.3*clarity)
* conservative_boost, 0, 1)` where the interaction-maturity bonus
`min(0.2, n/100)` for `n > 20` is ADDED to the base confidence before the
multiplications (not a multiplicative factor as claimed — see the
counterexample), clarity is the fixed 0.3/0.2/0.3/0.2 weighted combination
of the four context factors, conservative types get the 1.1 factor, and the
result always lies in [0, 1]. -/
theorem confidence_closed_form (profile : UserPreferenceProfile)
    (context_analysis : ContextAnalysis) (recommendation : Suggestion) :
    calculate_confidence profile context_analysis recommendation
      = clip ((recommendation.confidence_score.getD (1/2)
            + (if 20 < profile.total_interactions
               then min (1/5) ((profile.total_interactions : ℚ) / 100) else 0))
          * (1/2 + profile.acceptance_rate * (1/2))
          * (7/10 + (context_analysis.energy_alignment * (3/10)
              + (1 - context_analysis.time_pressure) * (1/5)
              + context_analysis.motivation_factor * (3/10)
              + (1 - context_analysis.crowding_impact) * (1/5)) * (3/10))
          * (if recommendation.type = "maintain_program"
                ∨ recommendation.type = "rest_increase"
                ∨ recommendation.type = "form_focus" then 11/10 else 1))
          0 1
    ∧ 0 ≤ calculate_confidence profile context_analysis recommendation
    ∧ calculate_confidence profile context_analysis recommendation ≤ 1 := by
  refine ⟨?_, ?_, ?_⟩
  · unfold calculate_confidence
    split_ifs <;> exact congrArg (fun z => clip z 0 1) (by ring)
  · exact (clip01_mem _).1
  · exact (clip01_mem _).2

/-- C7 counterexample: with reported base confidence 0 and 30 interactions
the code returns 3/20 (nonzero), because the maturity bonus is added to the
base before the multiplications; any formula of the claimed shape, in which
base_confidence is a multiplicative factor, returns 0 at this input whatever
value the interaction-maturity boost takes — the last conjunct instantiates
that product shape. -/
theorem confidence_not_multiplicative :
    calculate_confidence p30 caNeutral r0 = 3/20
    ∧ r0.confidence_score = some 0
    ∧ clip ((0 : ℚ) * (1/2 + p30.acceptance_rate * (1/2)) * (7/10 + 1 * (3/10)) * 1) 0 1
        = 0
    ∧ (3/20 : ℚ) ≠ 0 :=
  ⟨by with_unfolding_all decide, rfl, by with_unfolding_all decide, by norm_num⟩

/-- C8 (amended): every factor produced by `_analyze_context` lies in [0, 1]
provided the motivation signal is on its 0-10 scale and the available time
is non-negative; without those input bounds the claim fails (see the
counterexample: motivation 20 yields a factor of 2). -/
theorem context_factors_in_unit_interval (context : WorkoutContext)
    (profile : UserPreferenceProfile)
    (hm : ∀ m : ℚ, context.user_motivation = some m → 0 ≤ m ∧ m ≤ 10)
    (ht : ∀ t : ℚ, context.available_time = some t → 0 ≤ t) :
    (0 ≤ (analyze_context context profile).energy_alignment
      ∧ (analyze_context context profile).energy_alignment ≤ 1)
    ∧ (0 ≤ (analyze_context context profile).time_pressure
      ∧ (analyze_context context profile).time_pressure ≤ 1)
    ∧ (0 ≤ (analyze_context context profile).equipment_constraints
      ∧ (analyze_context context profile).equipment_constraints ≤ 1)
    ∧ (0 ≤ (analyze_context context profile).motivation_factor
      ∧ (analyze_context context profile).motivation_factor ≤ 1)
    ∧ (0 ≤ (analyze_context context profile).crowding_impact
      ∧ (analyze_context context profile).crowding_impact ≤ 1) := by
  unfold analyze_context
  refine ⟨?_, ?_, ?_, ?_, ?_⟩
  · cases context.user_energy with
    | none => norm_num
    | some e =>
        have h7 : (0:ℚ) ≤ |e - 7| / 7 := div_nonneg (abs_nonneg _) (by norm_num)
        constructor
        · exact le_max_left 0 _
        · exact max_le (by norm_num) (by linarith)
  · cases hT : context.available_time with
    | none => norm_num
    | some t =>
        have hnn := ht t hT
        dsimp only
        split_ifs with hc1 hc2
        · have hr : (0:ℚ) ≤ t / profile.time_constraints :=
            div_nonneg hnn (le_of_lt hc1)
          constructor <;> linarith
        · norm_num
        · norm_num
  · cases context.equipment_availability with
    | none => norm_num
    | some equip =>
        dsimp only
        split_ifs with hne hlen
        · constructor
          · exact div_nonneg (by positivity) (by positivity)
          · rw [div_le_one (by exact_mod_cast hlen)]
            exact_mod_cast List.countP_le_length _
        · norm_num
        · norm_num
  · cases hM : context.user_motivation with
    | none => norm_num
    | some m =>
        obtain ⟨m0, m1⟩ := hm m hM
        constructor <;> [linarith; linarith]
  · cases context.gym_crowding with
    | none => norm_num
    | some cs =>
        dsimp only
        split_ifs <;> norm_num

/-- Witness for C8 at a concrete in-range context. -/
theorem context_factors_in_unit_interval_witness :
    (0 ≤ (analyze_context ctxLowEnergy defaultProfile).energy_alignment
      ∧ (analyze_context ctxLowEnergy defaultProfile).energy_alignment ≤ 1)
    ∧ (0 ≤ (analyze_context ctxLowEnergy defaultProfile).time_pressure
      ∧ (analyze_context ctxLowEnergy defaultProfile).time_pressure ≤ 1)
    ∧ (0 ≤ (analyze_context ctxLowEnergy defaultProfile).equipment_constraints
      ∧ (analyze_context ctxLowEnergy defaultProfile).equipment_constraints ≤ 1)
    ∧ (0 ≤ (analyze_context ctxLowEnergy defaultProfile).motivation_factor
      ∧ (analyze_context ctxLowEnergy defaultProfile).motivation_factor ≤ 1)
    ∧ (0 ≤ (analyze_context ctxLowEnergy defaultProfile).crowding_impact
      ∧ (analyze_context ctxLowEnergy defaultProfile).crowding_impact ≤ 1) :=
  context_factors_in_unit_interval ctxLowEnergy defaultProfile
    (fun m h => by cases h) (fun t h => by cases h)

/-- C8 counterexample: a context reporting motivation 20 (instead of the
nominal 0-10 scale) drives `motivation_factor` to 2, outside [0, 1] — the
analyzer does not clamp its inputs, so the claim fails for arbitrary
contexts. -/
theorem context_motivation_factor_above_one :
    (analyze_context ctxHighMotivation defaultProfile).motivation_factor = 2
    ∧ ¬((2 : ℚ) ≤ 1) :=
  ⟨by with_unfolding_all decide, by norm_num⟩

/-- C9 (amended): `get_user_insights` leaves the engine state unchanged for
every user id that already has a profile entry and an interaction-history
entry; for an unknown id it mutates the state (see the counterexample),
because `get_user_profile` creates and stores a default profile and the
defaultdict access creates an empty history entry. -/
theorem insights_state_unchanged_for_known_user (st : EngineState)
    (user_id : String) (now : ℚ)
    (hp : (st.user_profiles.lookup user_id).isSome = true)
    (hh : (st.interaction_history.lookup user_id).isSome = true) :
    (get_user_insights st user_id now).2 = st := by
  obtain ⟨p, hp2⟩ := Option.isSome_iff_exists.mp hp
  obtain ⟨l, hh2⟩ := Option.isSome_iff_exists.mp hh
  unfold get_user_insights get_user_profile history_get
  rw [hp2]
  dsimp only
  rw [hh2]

/-- Witness for C9 on a state already holding the user. -/
theorem insights_state_unchanged_for_known_user_witness :
    (get_user_insights st1 "u1" 0).2 = st1 :=
  insights_state_unchanged_for_known_user st1 "u1" 0 (by decide) (by decide)

/-- C9 counterexample: on an empty engine state, fetching insights for an
unknown user id changes the state — a default profile and an empty history
entry are inserted. -/
theorem insights_mutate_state_for_unknown_user :
    (get_user_insights stEmpty "u1" 0).2 ≠ stEmpty := by
  with_unfolding_all decide

/-- C10: whenever current hydration intake has reached or exceeded the
target, `generate_hydration_recommendations` returns exactly one
recommendation — the maintenance entry with amount 0.25, priority low and
completed false — and in particular never an empty list. -/
theorem hydration_maintenance_when_target_met (user_id : String)
    (m : RecoveryMetrics) (current_intake target_intake : ℚ) (current_hour : Int)
    (h : target_intake ≤ current_intake) :
    generate_hydration_recommendations user_id m current_intake target_intake
        current_hour
      = [{ time := "now", amount := 1/4, reason := "maintenance"
         , priority := "low", completed := false }] := by
  unfold generate_hydration_recommendations
  rw [if_pos (by linarith)]

/-- Witness for C10 at a concrete intake above target. -/
theorem hydration_maintenance_when_target_met_witness :
    generate_hydration_recommendations "u1" {} (5/2) 2 10
      = [{ time := "now", amount := 1/4, reason := "maintenance"
         , priority := "low", completed := false }] :=
  hydration_maintenance_when_target_met "u1" {} (5/2) 2 10 (by norm_num)

lemma update_step_action_bounds (p : UserPreferenceProfile) (f : Feedback)
    (hp : ProfileBounded p) :
    ProfileBounded (update_step_action p f)
    ∧ (update_step_action p f).total_interactions = p.total_interactions := by
  obtain ⟨a0, a1, m0, m1, s0, s1, w0, w1, e0, e1, i0, i1, l0, l1⟩ := hp
  have hl0 : (0:ℚ) ≤ p.learning_rate := by linarith
  have hl1 : p.learning_rate ≤ 1 := by linarith
  have hacc := ema_mem_01 p.acceptance_rate 1 p.learning_rate a0 a1
    (by norm_num) (by norm_num) hl0 hl1
  have hrej := ema_mem_01 p.acceptance_rate 0 p.learning_rate a0 a1
    (by norm_num) (by norm_num) hl0 hl1
  have hmod := ema_mem_01 p.modification_frequency 1 p.learning_rate m0 m1
    (by norm_num) (by norm_num) hl0 hl1
  unfold update_step_action
  cases hm : f.modification_reason <;>
    (try dsimp only) <;>
    split_ifs <;>
      refine ⟨⟨?_, ?_, ?_, ?_, s0, s1, w0, w1, e0, e1, i0, i1, l0, l1⟩, rfl⟩ <;>
      first
        | exact hacc.1
        | exact hacc.2
        | exact hrej.1
        | exact hrej.2
        | exact hmod.1
        | exact hmod.2
        | exact a0
        | exact a1
        | exact m0
        | exact m1

lemma update_step_rating_bounds (p : UserPreferenceProfile) (f : Feedback)
    (hp : ProfileBounded p) :
    ProfileBounded (update_step_rating p f)
    ∧ (update_step_rating p f).total_interactions = p.total_interactions := by
  obtain ⟨a0, a1, m0, m1, s0, s1, w0, w1, e0, e1, i0, i1, l0, l1⟩ := hp
  unfold update_step_rating
  cases f.rating with
  | none => exact ⟨⟨a0, a1, m0, m1, s0, s1, w0, w1, e0, e1, i0, i1, l0, l1⟩, rfl⟩
  | some r =>
      exact ⟨⟨a0, a1, m0, m1, s0, s1, (clip01_mem _).1, (clip01_mem _).2,
        e0, e1, i0, i1, l0, l1⟩, rfl⟩

lemma update_step_response_time_bounds (p : UserPreferenceProfile) (f : Feedback)
    (hp : ProfileBounded p) :
    ProfileBounded (update_step_response_time p f)
    ∧ (update_step_response_time p f).total_interactions = p.total_interactions := by
  obtain ⟨a0, a1, m0, m1, s0, s1, w0, w1, e0, e1, i0, i1, l0, l1⟩ := hp
  unfold update_step_response_time
  cases f.response_time with
  | none => exact ⟨⟨a0, a1, m0, m1, s0, s1, w0, w1, e0, e1, i0, i1, l0, l1⟩, rfl⟩
  | some rt =>
      dsimp only
      split_ifs
      · exact ⟨⟨a0, a1, m0, m1, s0, s1, le_min (by norm_num) (by linarith),
          min_le_left 1 _, e0, e1, i0, i1, l0, l1⟩, rfl⟩
      · exact ⟨⟨a0, a1, m0, m1, s0, s1, le_max_left 0 _,
          max_le (by norm_num) (by linarith), e0, e1, i0, i1, l0, l1⟩, rfl⟩
      · exact ⟨⟨a0, a1, m0, m1, s0, s1, w0, w1, e0, e1, i0, i1, l0, l1⟩, rfl⟩

lemma patterns_step_rate_bounds (p : UserPreferenceProfile)
    (interactions : List Interaction) (hp : ProfileBounded p) :
    ProfileBounded (patterns_step_rate p interactions)
    ∧ (patterns_step_rate p interactions).total_interactions = p.total_interactions := by
  obtain ⟨a0, a1, m0, m1, s0, s1, w0, w1, e0, e1, i0, i1, l0, l1⟩ := hp
  unfold patterns_step_rate
  dsimp only
  split_ifs
  · exact ⟨⟨a0, a1, m0, m1, s0, s1, w0, w1, e0, e1, i0, i1,
      le_min (by norm_num) (by linarith), min_le_left _ _⟩, rfl⟩
  · exact ⟨⟨a0, a1, m0, m1, s0, s1, w0, w1, e0, e1, i0, i1,
      le_max_left _ _, max_le (by norm_num) (by linarith)⟩, rfl⟩

lemma patterns_step_rejections_bounds (p : UserPreferenceProfile)
    (interactions : List Interaction) (hp : ProfileBounded p) :
    ProfileBounded (patterns_step_rejections p interactions)
    ∧ (patterns_step_rejections p interactions).total_interactions
        = p.total_interactions := by
  unfold patterns_step_rejections
  dsimp only
  split_ifs <;> exact ⟨hp, rfl⟩

/-- C6: starting from a profile whose rate and confidence fields are in
[0, 1] and whose learning rate is in [0.05, 0.3], both profile mutations —
`update_user_preferences` and the pattern re-analysis
`_analyze_interaction_patterns` — keep every one of those fields in bounds,
`update_user_preferences` increments the interaction count by exactly one,
and the re-analysis leaves it unchanged, so the count never decreases. -/
theorem profile_mutations_preserve_bounds (p : UserPreferenceProfile)
    (f : Feedback) (now : ℚ) (interactions : List Interaction)
    (hp : ProfileBounded p) :
    (ProfileBounded (update_user_preferences p f now)
      ∧ (update_user_preferences p f now).total_interactions
          = p.total_interactions + 1)
    ∧ (ProfileBounded (analyze_interaction_patterns p interactions)
      ∧ (analyze_interaction_patterns p interactions).total_interactions
          = p.total_interactions) := by
  have h0 : ProfileBounded {p with total_interactions := p.total_interactions + 1} := hp
  obtain ⟨h1, t1⟩ := update_step_action_bounds _ f h0
  obtain ⟨h2, t2⟩ := update_step_rating_bounds _ f h1
  obtain ⟨h3, t3⟩ := update_step_response_time_bounds _ f h2
  obtain ⟨h4, t4⟩ := patterns_step_rate_bounds p interactions hp
  obtain ⟨h5, t5⟩ := patterns_step_rejections_bounds _ interactions h4
  refine ⟨⟨h3, ?_⟩, h5, t5.trans t4⟩
  show (update_step_response_time (update_step_rating (update_step_action
      {p with total_interactions := p.total_interactions + 1} f) f) f).total_interactions
    = p.total_interactions + 1
  rw [t3, t2, t1]

/-- Witness for C6: the default profile is in bounds and stays in bounds
through an accepted-feedback update and a pattern re-analysis. -/
theorem profile_mutations_preserve_bounds_witness :
    ProfileBounded defaultProfile
    ∧ ((ProfileBounded (update_user_preferences defaultProfile fbAccepted 0)
      ∧ (update_user_preferences defaultProfile fbAccepted 0).total_interactions
          = defaultProfile.total_interactions + 1)
    ∧ (ProfileBounded (analyze_interaction_patterns defaultProfile oneAccepted)
      ∧ (analyze_interaction_patterns defaultProfile oneAccepted).total_interactions
          = defaultProfile.total_interactions)) :=
  ⟨by with_unfolding_all decide,
   profile_mutations_preserve_bounds defaultProfile fbAccepted 0 oneAccepted
     (by with_unfolding_all decide)⟩

end GitFit
